import Mathlib

/-!
Shallow embedding of the core state-holding components of the
Business_Vision_Agent repository:

* `DatabaseManager` (src/server/services/database/connection.js, TS variant):
  a multi-tenant registry of named database connections.
* `DatabaseConnection` (same file, JS variant): a single connection with
  bounded retry/backoff.
* `EventBusService` (src/unnamed/part_002): the Redis-backed pub/sub
  transport with a ready flag, a wire-subscription set and an additive
  in-process listener list (Node `EventEmitter` semantics).
* `EventBusManager` (src/server/services/event-bus/eventManager.js):
  the channel→handler registry and the choreography handlers.

External collaborators (mongoose, Redis, `JSON.parse`/`JSON.stringify`,
timers) are modelled as explicit parameters or outcome oracles; all state
is passed explicitly and fallible operations return `Except`.
-/

/-- JavaScript primitive values as they occur in the event payloads of this
codebase (all published payloads are flat objects of primitives). -/
inductive JPrim where
  | vStr : String → JPrim
  | vNum : Int → JPrim
  | vBool : Bool → JPrim
  | vNull : JPrim
  | vUndef : JPrim
deriving DecidableEq, Repr

/-- A flat JavaScript object: an ordered association list of fields. -/
abbrev Payload := List (String × JPrim)

/-- Field access `obj.key`; a missing key reads as JS `undefined`. -/
def getField : Payload → String → JPrim
  | [], _ => .vUndef
  | (k', v) :: rest, k => if k' = k then v else getField rest k

/-- JS truthiness on the primitives we model: `0`, `""`, `false`, `null`
and `undefined` are falsy. -/
def truthy : JPrim → Bool
  | .vStr s => s ≠ ""
  | .vNum n => n ≠ 0
  | .vBool b => b
  | .vNull => false
  | .vUndef => false

/-- JS `a || b`: `a` when truthy, otherwise `b`. -/
def jsOr (a b : JPrim) : JPrim :=
  if truthy a then a else b

/-- Lookup in an ordered string-keyed association list
(JS `Map.get` / object field read). -/
def lookupKey {α : Type} : List (String × α) → String → Option α
  | [], _ => none
  | (k', v) :: rest, k => if k' = k then some v else lookupKey rest k

/-- JS `Map.has`. -/
def hasKey {α : Type} (l : List (String × α)) (k : String) : Bool :=
  (lookupKey l k).isSome

/-- JS `Map.set` (and object-spread override): replace the value in place
when the key is present, otherwise append the new pair at the end. -/
def setKey {α : Type} (l : List (String × α)) (k : String) (v : α) :
    List (String × α) :=
  if hasKey l k then l.map (fun p => if p.1 = k then (k, v) else p)
  else l ++ [(k, v)]

/-- JS `Map.delete`. -/
def removeKey {α : Type} (l : List (String × α)) (k : String) :
    List (String × α) :=
  l.filter (fun p => p.1 ≠ k)

/-- The keys of the association list are pairwise distinct
(the defining invariant of a JS `Map`). -/
def keysNodup {α : Type} (l : List (String × α)) : Prop :=
  (l.map Prod.fst).Nodup

/-! ### Multi-tenant database registry (`DatabaseManager`, TS variant) -/

/-- A mongoose `Connection` handle as the registry sees it: an identity,
a `readyState` (0 disconnected, 1 connected, 2 connecting,
3 disconnecting) and an oracle telling whether `close()` would throw. -/
structure Connection where
  connId : Nat
  readyState : Nat
  closeFails : Bool
deriving DecidableEq, Repr

/-- The `DatabaseManager` state: `connections : Map<string, Connection>`. -/
structure DBManager where
  connections : List (String × Connection)
deriving DecidableEq, Repr

/-- `DatabaseManager.connectToDatabase(serviceName, config)`.
The external `mongoose.createConnection(config.uri, …)` outcome is the
`create` parameter. Returns the handle, the new registry state and whether
a new underlying connection was opened; a failed creation is rethrown. -/
def DatabaseManager.connectToDatabase (m : DBManager) (serviceName : String)
    (create : Except String Connection) :
    Except String (Connection × DBManager × Bool) :=
  match lookupKey m.connections serviceName with
  | some existing =>
      if existing.readyState = 1 then
        .ok (existing, m, false)
      else
        match create with
        | .ok c => .ok (c, ⟨setKey m.connections serviceName c⟩, true)
        | .error e => .error e
  | none =>
      match create with
      | .ok c => .ok (c, ⟨setKey m.connections serviceName c⟩, true)
      | .error e => .error e

/-- `DatabaseManager.getConnection(serviceName)`: throws when absent. -/
def DatabaseManager.getConnection (m : DBManager) (serviceName : String) :
    Except String Connection :=
  match lookupKey m.connections serviceName with
  | some c => .ok c
  | none => .error ("Database connection for " ++ serviceName ++ " not found")

/-- The try-block body of `DatabaseManager.disconnectDatabase`: when a
handle exists, `await connection.close()` (which may throw — the
`closeFails` oracle), and only after a successful close delete the entry. -/
def DatabaseManager.disconnectBody (m : DBManager) (serviceName : String) :
    Except String DBManager :=
  match lookupKey m.connections serviceName with
  | some c =>
      if c.closeFails then .error "close failed"
      else .ok ⟨removeKey m.connections serviceName⟩
  | none => .ok m

/-- `DatabaseManager.disconnectDatabase(serviceName)`: the whole body is
wrapped in try/catch; an error is logged and swallowed, leaving the state
as it was when the throw happened. -/
def DatabaseManager.disconnectDatabase (m : DBManager) (serviceName : String) :
    Except String DBManager :=
  match DatabaseManager.disconnectBody m serviceName with
  | .ok m' => .ok m'
  | .error _ => .ok m

/-! ### Single-connection database variant (`DatabaseConnection`, JS) -/

/-- The `DatabaseConnection` instance state. -/
structure DBConn where
  isConnected : Bool
  connection : Option Nat
  connectionRetries : Nat
  maxRetries : Nat
deriving DecidableEq, Repr

/-- `DatabaseConnection.connect()`. The external `mongoose.connect` outcome
for each attempt is the oracle `att`, indexed by the value of
`connectionRetries` at the time of the attempt. Returns the list of delays
(ms) awaited before each retry, paired with either the connection and the
final state, or the error thrown after the retry cap is exhausted. -/
def DatabaseConnection.connect (att : Nat → Except String Nat) (st : DBConn) :
    List Nat × Except String (Nat × DBConn) :=
  match st.isConnected, st.connection with
  | true, some c => ([], .ok (c, st))
  | _, _ =>
      match att st.connectionRetries with
      | .ok c =>
          ([], .ok (c, { st with isConnected := true, connection := some c,
                                 connectionRetries := 0 }))
      | .error e =>
          if st.connectionRetries < st.maxRetries then
            let r := DatabaseConnection.connect att
              { st with isConnected := false,
                        connectionRetries := st.connectionRetries + 1 }
            (5000 * (st.connectionRetries + 1) :: r.1, r.2)
          else
            ([], .error e)
termination_by st.maxRetries - st.connectionRetries
decreasing_by
  simp
  omega

/-! ### Event bus transport (`EventBusService`) -/

/-- Outcome oracles for the external Redis operations that can reject. -/
structure Env where
  subscribeFails : String → Bool
  unsubscribeFails : String → Bool

/-- The `EventBusService` state: the ready flag, the set of channels the
subscriber connection is subscribed to on the wire, and the in-process
`EventEmitter` listener list (additive; callbacks named by `Nat` ids). -/
structure TransportState where
  isConnected : Bool
  wireSubs : List String
  listeners : List (String × Nat)
deriving DecidableEq, Repr

/-- The data argument of `publish`: a string passes through unchanged,
anything else goes through `JSON.stringify`. -/
inductive WireData where
  | strData : String → WireData
  | objData : Payload → WireData
deriving DecidableEq, Repr

/-- `typeof data === 'string' ? data : JSON.stringify(data)`; the external
`JSON.stringify` is the `stringify` parameter. -/
def serializeData (stringify : Payload → String) : WireData → String
  | .strData s => s
  | .objData p => stringify p

/-- What one `publish` call does to the outside world: the messages sent on
the wire through the publisher connection, and the in-process emitter
invocations performed directly by `publish` itself. -/
structure PublishEffect where
  wire : List (String × String)
  emitted : List (String × String)
deriving DecidableEq, Repr

/-- `EventBusService.publish(channel, data)`: throws when the ready flag is
false (nothing reaches the wire); otherwise serializes and sends on the
publisher connection. The source performs no in-process emit here, so
`emitted` is always empty. -/
def EventBusService.publish (stringify : Payload → String)
    (st : TransportState) (channel : String) (data : WireData) :
    Except String PublishEffect :=
  if st.isConnected then
    .ok { wire := [(channel, serializeData stringify data)], emitted := [] }
  else
    .error "Event Bus not connected"

/-- `EventBusService.subscribe(channel, callback)`: throws when not ready;
otherwise `subscriber.subscribe(channel)` on the wire (which may reject —
the `Env` oracle; the error is rethrown), then `this.on(channel, callback)`
appends the callback to the emitter's listener list. -/
def EventBusService.subscribe (env : Env) (st : TransportState)
    (channel : String) (cb : Nat) : Except String TransportState :=
  if st.isConnected then
    if env.subscribeFails channel then .error "subscribe failed"
    else
      .ok { st with
              wireSubs := if st.wireSubs.contains channel then st.wireSubs
                          else st.wireSubs ++ [channel],
              listeners := st.listeners ++ [(channel, cb)] }
  else
    .error "Event Bus not connected"

/-- `EventBusService.unsubscribe(channel)`:
`subscriber.unsubscribe(channel)` on the wire (may reject — rethrown),
then `removeAllListeners(channel)`. -/
def EventBusService.unsubscribe (env : Env) (st : TransportState)
    (channel : String) : Except String TransportState :=
  if env.unsubscribeFails channel then .error "unsubscribe failed"
  else
    .ok { st with wireSubs := st.wireSubs.filter (fun c => c ≠ channel),
                  listeners := st.listeners.filter (fun p => p.1 ≠ channel) }

/-- What the emitter hands a listener: the JSON-parsed value, or the raw
wire string when parsing failed. -/
inductive Delivered where
  | parsed : Payload → Delivered
  | raw : String → Delivered
deriving DecidableEq, Repr

/-- `this.emit(channel, v)`: invoke every listener registered on `channel`,
in registration order, with `v`. -/
def emitTo (st : TransportState) (channel : String) (v : Delivered) :
    List (Nat × Delivered) :=
  (st.listeners.filter (fun p => p.1 = channel)).map (fun p => (p.2, v))

/-- The `subscriber.on('message', …)` handler installed by
`EventBusService.setupMessageHandling`: try `JSON.parse(message)` and emit
the parsed value; on a parse error, catch it and emit the raw message
instead. The external `JSON.parse` is the `parse` parameter. Returns the
list of (callback id, delivered value) invocations; `.error` would mean an
exception escaping the handler. -/
def EventBusService.onWireMessage (parse : String → Except String Payload)
    (st : TransportState) (channel : String) (message : String) :
    Except String (List (Nat × Delivered)) :=
  match parse message with
  | .ok v => .ok (emitTo st channel (.parsed v))
  | .error _ => .ok (emitTo st channel (.raw message))

/-! ### Event manager (`EventBusManager`) -/

/-- The `EventBusManager` state: `channels : Map<string, handler>` (handlers
named by `Nat` ids) and the ready flag. -/
structure MgrState where
  channels : List (String × Nat)
  isInitialized : Bool
deriving DecidableEq, Repr

/-- `EventBusManager.subscribe(channel, handler)`: delegate to the transport
subscribe and, only when it succeeded, record the handler in the manager's
`channels` map; a transport failure is caught and logged, leaving both the
transport state and the registry unchanged. -/
def EventBusManager.subscribe (env : Env) (ts : TransportState)
    (ms : MgrState) (channel : String) (handler : Nat) :
    TransportState × MgrState :=
  match EventBusService.subscribe env ts channel handler with
  | .ok ts' => (ts', { ms with channels := setKey ms.channels channel handler })
  | .error _ => (ts, ms)

/-- The envelope injection done by `EventBusManager.publish`:
`{...data, timestamp: …, eventId: …}` (object spread, later keys win). -/
def EventBusManager.injectEnvelope (now eventId : String) (data : Payload) :
    Payload :=
  setKey (setKey data "timestamp" (.vStr now)) "eventId" (.vStr eventId)

/-- `EventBusManager.handleBusinessStrategyCompleted(data)`: the manager
publishes, as its single outbound event, to `usage-guardian.update-usage`
the object `{userId: data.userId, agentType: 'business-strategy', action:
'generate-strategy', tokensUsed: data.tokensUsed || 0}`. Returned as the
list of (channel, payload) manager-publish calls the handler makes. -/
def EventBusManager.handleBusinessStrategyCompleted (data : Payload) :
    List (String × Payload) :=
  [("usage-guardian.update-usage",
    [("userId", getField data "userId"),
     ("agentType", .vStr "business-strategy"),
     ("action", .vStr "generate-strategy"),
     ("tokensUsed", jsOr (getField data "tokensUsed") (.vNum 0))])]

/-- The events a handler's manager-publish calls put on the bus, after
envelope injection (`now`/`eventId` supplied by the clock and the id
generator at publish time). -/
def EventBusManager.publishedEvents (now eventId : String)
    (calls : List (String × Payload)) : List (String × Payload) :=
  calls.map (fun c => (c.1, EventBusManager.injectEnvelope now eventId c.2))

/-- The unsubscribe loop of `EventBusManager.gracefulShutdown`: iterate the
registered channels in order, `await eventBus.unsubscribe(channel)` on
each. The loop lives inside the surrounding try, so the first throw aborts
it. Returns the updated transport state, the channels whose unsubscribe was
attempted (in order), and whether the loop ran to completion. -/
def EventBusManager.shutdownUnsubLoop (env : Env) (ts : TransportState) :
    List String → TransportState × List String × Bool
  | [] => (ts, [], true)
  | c :: rest =>
      match EventBusService.unsubscribe env ts c with
      | .ok ts' =>
          let r := EventBusManager.shutdownUnsubLoop env ts' rest
          (r.1, c :: r.2.1, r.2.2)
      | .error _ => (ts, [c], false)

/-- The observable trace of one `gracefulShutdown()` call. -/
structure ShutdownTrace where
  attempted : List String
  disconnectAttempted : Bool
  errorToCaller : Bool
deriving DecidableEq, Repr

/-- `EventBusManager.gracefulShutdown()`: one try/catch around the whole
sequence — unsubscribe every registered channel, then
`eventBus.disconnect()`. A throw anywhere jumps to the catch, which logs
and returns; nothing propagates to the caller. -/
def EventBusManager.gracefulShutdown (env : Env) (ts : TransportState)
    (ms : MgrState) : ShutdownTrace :=
  let r := EventBusManager.shutdownUnsubLoop env ts (ms.channels.map Prod.fst)
  if r.2.2 then
    { attempted := r.2.1, disconnectAttempted := true, errorToCaller := false }
  else
    { attempted := r.2.1, disconnectAttempted := false, errorToCaller := false }

/-- The channel list reported by `EventBusManager.getStatus()`. -/
def EventBusManager.getStatusChannels (ms : MgrState) : List String :=
  ms.channels.map Prod.fst

/-! ### Association-list lemmas -/

theorem lookupKey_eq_none_iff {α : Type} (l : List (String × α)) (k : String) :
    lookupKey l k = none ↔ k ∉ l.map Prod.fst := by
  induction l with
  | nil => simp [lookupKey]
  | cons p rest ih =>
      obtain ⟨k', v⟩ := p
      by_cases h : k' = k
      · subst h
        simp [lookupKey]
      · simp only [lookupKey, if_neg h, List.map_cons, List.mem_cons, ih]
        constructor
        · intro hn hor
          cases hor with
          | inl he => exact h he.symm
          | inr hm => exact hn hm
        · intro hn hm
          exact hn (Or.inr hm)

theorem not_mem_keys_of_hasKey_eq_false {α : Type} {l : List (String × α)}
    {k : String} (h : hasKey l k = false) : k ∉ l.map Prod.fst := by
  rw [← lookupKey_eq_none_iff]
  cases e : lookupKey l k with
  | none => rfl
  | some v => simp [hasKey, e] at h

theorem map_fst_ite_set {α : Type} (l : List (String × α)) (k : String)
    (v : α) :
    (l.map (fun p => if p.1 = k then (k, v) else p)).map Prod.fst
      = l.map Prod.fst := by
  induction l with
  | nil => simp
  | cons p rest ih =>
      simp only [List.map_cons]
      by_cases h : p.1 = k
      · rw [if_pos h, ih, h]
      · rw [if_neg h, ih]

theorem map_ite_set_of_not_mem {α : Type} (l : List (String × α)) (k : String)
    (v : α) (h : k ∉ l.map Prod.fst) :
    l.map (fun p => if p.1 = k then (k, v) else p) = l := by
  induction l with
  | nil => simp
  | cons p rest ih =>
      simp only [List.map_cons, List.mem_cons] at h
      push_neg at h
      have h1 : p.1 ≠ k := fun hk => h.1 hk.symm
      simp [h1, ih h.2]

theorem filter_keys_eq_nil_of_not_mem {α : Type} (l : List (String × α))
    (k : String) (h : k ∉ l.map Prod.fst) :
    l.filter (fun p => p.1 = k) = [] := by
  induction l with
  | nil => simp
  | cons p rest ih =>
      simp only [List.map_cons, List.mem_cons] at h
      push_neg at h
      have h1 : p.1 ≠ k := fun hk => h.1 hk.symm
      simp [List.filter, h1, ih h.2]

theorem keysNodup_setKey {α : Type} (l : List (String × α)) (k : String)
    (v : α) (h : keysNodup l) : keysNodup (setKey l k v) := by
  by_cases hk : hasKey l k
  · unfold keysNodup
    rw [setKey, if_pos hk, map_fst_ite_set]
    exact h
  · have hnm : k ∉ l.map Prod.fst :=
      not_mem_keys_of_hasKey_eq_false (by simpa using hk)
    unfold keysNodup
    rw [setKey, if_neg hk, List.map_append, List.nodup_append]
    refine ⟨h, List.nodup_singleton _, ?_⟩
    intro a ha hb
    simp only [List.map_cons, List.map_nil, List.mem_singleton] at hb
    subst hb
    exact hnm ha

theorem setKey_cons_ne {α : Type} (k₁ : String) (v₁ : α)
    (rest : List (String × α)) (k : String) (v : α) (h : k₁ ≠ k) :
    setKey ((k₁, v₁) :: rest) k v = (k₁, v₁) :: setKey rest k v := by
  have hh : hasKey ((k₁, v₁) :: rest) k = hasKey rest k := by
    simp [hasKey, lookupKey, h]
  by_cases h2 : hasKey rest k
  · simp [setKey, hh, h2, h]
  · simp [setKey, hh, h2, h]

theorem filter_setKey {α : Type} (l : List (String × α)) (k : String) (v : α)
    (h : keysNodup l) :
    (setKey l k v).filter (fun p => p.1 = k) = [(k, v)] := by
  induction l with
  | nil => simp [setKey, hasKey, lookupKey, List.filter]
  | cons p rest ih =>
      obtain ⟨k₁, v₁⟩ := p
      unfold keysNodup at h
      simp only [List.map_cons, List.nodup_cons] at h
      by_cases he : k₁ = k
      · subst he
        have hk : hasKey ((k₁, v₁) :: rest) k₁ = true := by
          simp [hasKey, lookupKey]
        have hrest : rest.map (fun p => if p.1 = k₁ then (k₁, v) else p)
            = rest := map_ite_set_of_not_mem rest k₁ v h.1
        simp only [setKey, hk, if_true, List.map_cons, if_pos rfl]
        rw [hrest]
        simp [List.filter, filter_keys_eq_nil_of_not_mem rest k₁ h.1]
      · rw [setKey_cons_ne k₁ v₁ rest k v he]
        simp [List.filter, he, ih h.2]

theorem lookupKey_removeKey {α : Type} (l : List (String × α)) (k : String) :
    lookupKey (removeKey l k) k = none := by
  induction l with
  | nil => simp [removeKey, lookupKey]
  | cons p rest ih =>
      by_cases h : p.1 = k
      · simpa [removeKey, List.filter, h] using ih
      · obtain ⟨k₁, v₁⟩ := p
        simp only at h
        simpa [removeKey, List.filter, h, lookupKey] using ih

theorem lookupKey_setKey_self {α : Type} (l : List (String × α)) (k : String)
    (v : α) : lookupKey (setKey l k v) k = some v := by
  induction l with
  | nil => simp [setKey, hasKey, lookupKey]
  | cons p rest ih =>
      obtain ⟨k₁, v₁⟩ := p
      by_cases he : k₁ = k
      · subst he
        have hk : hasKey ((k₁, v₁) :: rest) k₁ = true := by
          simp [hasKey, lookupKey]
        simp [setKey, hk, lookupKey]
      · rw [setKey_cons_ne k₁ v₁ rest k v he]
        simpa [lookupKey, he] using ih

theorem mem_keys_of_lookupKey {α : Type} {l : List (String × α)} {k : String}
    {v : α} (h : lookupKey l k = some v) : k ∈ l.map Prod.fst := by
  by_contra hn
  rw [← lookupKey_eq_none_iff] at hn
  rw [h] at hn
  cases hn

theorem mgrSubscribe_ok (env : Env) (ts : TransportState) (ms : MgrState)
    (c : String) (h : Nat) (hc : ts.isConnected = true)
    (hs : env.subscribeFails c = false) :
    EventBusManager.subscribe env ts ms c h
      = ({ ts with
             wireSubs := if ts.wireSubs.contains c then ts.wireSubs
                         else ts.wireSubs ++ [c],
             listeners := ts.listeners ++ [(c, h)] },
         { ms with channels := setKey ms.channels c h }) := by
  unfold EventBusManager.subscribe EventBusService.subscribe
  rw [hc, hs]
  simp

/-! ### Claim theorems -/

/-- Claim C1: if the registry holds a handle for `serviceName` whose
`readyState` is connected (1), then `connectToDatabase` returns that
existing handle unchanged, leaves the registry unchanged and opens no new
underlying connection, whatever the creation oracle would do; consequently
calling `connect` twice with the state connected in between yields the
identical handle both times. -/
theorem connectToDatabase_reuses_connected_handle
    (m : DBManager) (s : String) (h : Connection)
    (hl : lookupKey m.connections s = some h) (hr : h.readyState = 1)
    (create create₂ : Except String Connection) :
    DatabaseManager.connectToDatabase m s create = .ok (h, m, false) ∧
    (DatabaseManager.connectToDatabase m s create).bind
        (fun r => DatabaseManager.connectToDatabase r.2.1 s create₂)
      = .ok (h, m, false) := by
  have h1 : DatabaseManager.connectToDatabase m s create = .ok (h, m, false) := by
    unfold DatabaseManager.connectToDatabase
    rw [hl]
    simp [hr]
  have h2 : DatabaseManager.connectToDatabase m s create₂ = .ok (h, m, false) := by
    unfold DatabaseManager.connectToDatabase
    rw [hl]
    simp [hr]
  refine ⟨h1, ?_⟩
  rw [h1]
  exact h2

/-- Claim C1 witness: a registry holding a connected handle for
"strategy" returns it unchanged twice even though any fresh creation
attempt would fail. -/
theorem connectToDatabase_reuses_connected_handle_witness :
    DatabaseManager.connectToDatabase
        ⟨[("strategy", ⟨7, 1, false⟩)]⟩ "strategy" (.error "down")
      = .ok (⟨7, 1, false⟩, ⟨[("strategy", ⟨7, 1, false⟩)]⟩, false) ∧
    (DatabaseManager.connectToDatabase
        ⟨[("strategy", ⟨7, 1, false⟩)]⟩ "strategy" (.error "down")).bind
        (fun r => DatabaseManager.connectToDatabase r.2.1 "strategy"
                    (.error "down"))
      = .ok (⟨7, 1, false⟩, ⟨[("strategy", ⟨7, 1, false⟩)]⟩, false) :=
  connectToDatabase_reuses_connected_handle
    ⟨[("strategy", ⟨7, 1, false⟩)]⟩ "strategy" ⟨7, 1, false⟩ rfl rfl
    (.error "down") (.error "down")

/-- Claim C3: transport `publish` with the ready flag false fails with the
NotConnected error; the `.error` result carries no `PublishEffect`, so no
message is sent on the wire. -/
theorem publish_not_connected_fails (stringify : Payload → String)
    (st : TransportState) (channel : String) (data : WireData)
    (h : st.isConnected = false) :
    EventBusService.publish stringify st channel data
      = .error "Event Bus not connected" := by
  unfold EventBusService.publish
  rw [h]
  simp

/-- Claim C3 witness: publishing on the freshly-constructed (never
connected) transport fails with the NotConnected error. -/
theorem publish_not_connected_fails_witness :
    EventBusService.publish (fun _ => "") ⟨false, [], []⟩ "c" (.strData "x")
      = .error "Event Bus not connected" :=
  publish_not_connected_fails (fun _ => "") ⟨false, [], []⟩ "c" (.strData "x")
    rfl

/-- Claim C6 counterexample: with the registry holding "assets" and a
handle whose `close()` throws, `disconnectDatabase` swallows the error but
does NOT remove the entry — the call returns with the registry unchanged
and a subsequent `getConnection` still succeeds instead of failing
NotFound, contradicting the claim that after `disconnect` returns the
registry holds no entry for the service. -/
theorem disconnectDatabase_close_failure_keeps_entry :
    DatabaseManager.disconnectDatabase ⟨[("assets", ⟨3, 1, true⟩)]⟩ "assets"
      = .ok ⟨[("assets", ⟨3, 1, true⟩)]⟩ ∧
    DatabaseManager.getConnection ⟨[("assets", ⟨3, 1, true⟩)]⟩ "assets"
      = .ok ⟨3, 1, true⟩ := by
  constructor <;> rfl

/-- Claim C6 amended: `disconnectDatabase` never raises to its caller; when
`serviceName` was never connected it is a no-op and `getConnection` still
fails NotFound; when a handle is present and its close succeeds, the entry
is removed and a subsequent `getConnection` fails NotFound. (When the close
throws, the error is swallowed but the entry remains in the registry.) -/
theorem disconnectDatabase_noraise_removes_on_clean_close
    (m : DBManager) (s : String) :
    (∃ m', DatabaseManager.disconnectDatabase m s = .ok m') ∧
    (lookupKey m.connections s = none →
      DatabaseManager.disconnectDatabase m s = .ok m ∧
      DatabaseManager.getConnection m s
        = .error ("Database connection for " ++ s ++ " not found")) ∧
    (∀ c, lookupKey m.connections s = some c → c.closeFails = false →
      DatabaseManager.disconnectDatabase m s
          = .ok ⟨removeKey m.connections s⟩ ∧
      DatabaseManager.getConnection ⟨removeKey m.connections s⟩ s
        = .error ("Database connection for " ++ s ++ " not found")) := by
  refine ⟨?_, ?_, ?_⟩
  · unfold DatabaseManager.disconnectDatabase DatabaseManager.disconnectBody
    cases hl : lookupKey m.connections s with
    | none => exact ⟨m, rfl⟩
    | some c =>
        by_cases hf : c.closeFails
        · exact ⟨m, by simp [hf]⟩
        · exact ⟨⟨removeKey m.connections s⟩, by simp [hf]⟩
  · intro hl
    constructor
    · unfold DatabaseManager.disconnectDatabase DatabaseManager.disconnectBody
      rw [hl]
    · unfold DatabaseManager.getConnection
      rw [hl]
  · intro c hl hf
    constructor
    · unfold DatabaseManager.disconnectDatabase DatabaseManager.disconnectBody
      rw [hl]
      simp [hf]
    · unfold DatabaseManager.getConnection
      rw [lookupKey_removeKey]

/-- Claim C6 amended witness: disconnecting "assets" whose close succeeds
removes the entry and a subsequent `getConnection` fails NotFound. -/
theorem disconnectDatabase_noraise_removes_on_clean_close_witness :
    DatabaseManager.disconnectDatabase ⟨[("assets", ⟨1, 1, false⟩)]⟩ "assets"
      = .ok ⟨[]⟩ ∧
    DatabaseManager.getConnection (⟨[]⟩ : DBManager) "assets"
      = .error "Database connection for assets not found" :=
  (disconnectDatabase_noraise_removes_on_clean_close
      ⟨[("assets", ⟨1, 1, false⟩)]⟩ "assets").2.2 ⟨1, 1, false⟩ rfl rfl

/-- Claim C2: for an inbound `business-strategy.completed` payload
containing `userId = u` and `tokensUsed = n`, the manager's handler makes
exactly one publish, to `usage-guardian.update-usage`, whose event is
`{userId: u, agentType: "business-strategy", action: "generate-strategy",
tokensUsed: n}` plus the injected `timestamp` and `eventId` fields. -/
theorem handleBusinessStrategyCompleted_publishes_usage
    (data : Payload) (u : String) (n : Int) (now eid : String)
    (hu : getField data "userId" = .vStr u)
    (hn : getField data "tokensUsed" = .vNum n) :
    EventBusManager.publishedEvents now eid
        (EventBusManager.handleBusinessStrategyCompleted data)
      = [("usage-guardian.update-usage",
          [("userId", .vStr u),
           ("agentType", .vStr "business-strategy"),
           ("action", .vStr "generate-strategy"),
           ("tokensUsed", .vNum n),
           ("timestamp", .vStr now),
           ("eventId", .vStr eid)])] := by
  by_cases h0 : n = 0
  · subst h0
    simp [EventBusManager.publishedEvents,
          EventBusManager.handleBusinessStrategyCompleted,
          EventBusManager.injectEnvelope, setKey, hasKey, lookupKey,
          hu, hn, jsOr, truthy]
  · simp [EventBusManager.publishedEvents,
          EventBusManager.handleBusinessStrategyCompleted,
          EventBusManager.injectEnvelope, setKey, hasKey, lookupKey,
          hu, hn, jsOr, truthy, h0]

/-- Claim C2 witness: the spec's Scenario B payload
`{userId: "u1", tokensUsed: 42}`. -/
theorem handleBusinessStrategyCompleted_publishes_usage_witness :
    EventBusManager.publishedEvents "t0" "e0"
        (EventBusManager.handleBusinessStrategyCompleted
          [("userId", .vStr "u1"), ("tokensUsed", .vNum 42)])
      = [("usage-guardian.update-usage",
          [("userId", .vStr "u1"),
           ("agentType", .vStr "business-strategy"),
           ("action", .vStr "generate-strategy"),
           ("tokensUsed", .vNum 42),
           ("timestamp", .vStr "t0"),
           ("eventId", .vStr "e0")])] :=
  handleBusinessStrategyCompleted_publishes_usage
    [("userId", .vStr "u1"), ("tokensUsed", .vNum 42)] "u1" 42 "t0" "e0"
    rfl rfl

/-- Claim C4: for every inbound wire message on a subscribed channel, if
the message parses under the canonical encoding the parsed value is
delivered to the channel's callbacks, and if parsing fails the raw
unparsed payload is delivered instead; in both cases the dispatch step
returns normally (never `.error`). -/
theorem onWireMessage_parsed_or_raw (parse : String → Except String Payload)
    (st : TransportState) (channel msg : String) :
    (∀ v, parse msg = .ok v →
        EventBusService.onWireMessage parse st channel msg
          = .ok (emitTo st channel (.parsed v))) ∧
    (∀ e, parse msg = .error e →
        EventBusService.onWireMessage parse st channel msg
          = .ok (emitTo st channel (.raw msg))) ∧
    (∃ ds, EventBusService.onWireMessage parse st channel msg = .ok ds) := by
  refine ⟨?_, ?_, ?_⟩
  · intro v hv
    unfold EventBusService.onWireMessage
    rw [hv]
  · intro e he
    unfold EventBusService.onWireMessage
    rw [he]
  · unfold EventBusService.onWireMessage
    cases hp : parse msg with
    | ok v => exact ⟨emitTo st channel (.parsed v), rfl⟩
    | error e => exact ⟨emitTo st channel (.raw msg), rfl⟩

/-- Claim C4 witness: with a listener on channel "c", a well-formed
message is delivered parsed and a malformed one is delivered raw, and both
dispatches return normally. -/
theorem onWireMessage_parsed_or_raw_witness :
    EventBusService.onWireMessage
        (fun s => if s = "good" then .ok [("k", JPrim.vNum 1)]
                  else .error "parse error")
        ⟨true, ["c"], [("c", 7)]⟩ "c" "good"
      = .ok [(7, .parsed [("k", JPrim.vNum 1)])] ∧
    EventBusService.onWireMessage
        (fun s => if s = "good" then .ok [("k", JPrim.vNum 1)]
                  else .error "parse error")
        ⟨true, ["c"], [("c", 7)]⟩ "c" "bad"
      = .ok [(7, .raw "bad")] := by
  constructor
  · rw [(onWireMessage_parsed_or_raw
        (fun s => if s = "good" then .ok [("k", JPrim.vNum 1)]
                  else .error "parse error")
        ⟨true, ["c"], [("c", 7)]⟩ "c" "good").1 [("k", JPrim.vNum 1)] rfl]
    rfl
  · rw [(onWireMessage_parsed_or_raw
        (fun s => if s = "good" then .ok [("k", JPrim.vNum 1)]
                  else .error "parse error")
        ⟨true, ["c"], [("c", 7)]⟩ "c" "bad").2.1 "parse error" rfl]
    rfl

theorem shutdownUnsubLoop_all_ok (env : Env) :
    ∀ (chans : List String) (ts : TransportState),
      (∀ c ∈ chans, env.unsubscribeFails c = false) →
      (EventBusManager.shutdownUnsubLoop env ts chans).2 = (chans, true) := by
  intro chans
  induction chans with
  | nil => intro ts _; rfl
  | cons c rest ih =>
      intro ts h
      have hc : env.unsubscribeFails c = false := h c (by simp)
      have hrest : ∀ x ∈ rest, env.unsubscribeFails x = false :=
        fun x hx => h x (List.mem_cons_of_mem _ hx)
      simp only [EventBusManager.shutdownUnsubLoop,
                 EventBusService.unsubscribe, hc, Bool.false_eq_true,
                 if_false]
      rw [ih _ hrest]

/-- Claim C5 counterexample: with channels "a" and "b" registered and the
wire unsubscribe for "a" rejecting, `gracefulShutdown` attempts only "a":
the throw aborts the loop before "b" and the transport disconnect is never
reached — it does not continue past the individual unsubscribe error
(though no error reaches the caller). -/
theorem gracefulShutdown_aborts_on_first_error :
    EventBusManager.gracefulShutdown
        ⟨fun _ => false, fun c => c = "a"⟩
        ⟨true, ["a", "b"], [("a", 1), ("b", 2)]⟩
        ⟨[("a", 1), ("b", 2)], true⟩
      = { attempted := ["a"], disconnectAttempted := false,
          errorToCaller := false } := by
  rfl

/-- Claim C5 amended: `gracefulShutdown` never propagates an error to its
caller; when every wire unsubscribe succeeds it unsubscribes every
registered channel in order and then disconnects the Transport; but the
unsubscribe loop shares one try/catch with the disconnect, so the first
failing unsubscribe aborts the remaining unsubscribes and skips the
transport disconnect. -/
theorem gracefulShutdown_best_effort_until_first_error
    (env : Env) (ts : TransportState) (ms : MgrState) :
    (EventBusManager.gracefulShutdown env ts ms).errorToCaller = false ∧
    ((∀ c ∈ ms.channels.map Prod.fst, env.unsubscribeFails c = false) →
      (EventBusManager.gracefulShutdown env ts ms).attempted
          = ms.channels.map Prod.fst ∧
      (EventBusManager.gracefulShutdown env ts ms).disconnectAttempted
          = true) := by
  constructor
  · unfold EventBusManager.gracefulShutdown
    by_cases hb :
        (EventBusManager.shutdownUnsubLoop env ts
          (ms.channels.map Prod.fst)).2.2
    · simp [hb]
    · simp [hb]
  · intro h
    have hloop := shutdownUnsubLoop_all_ok env (ms.channels.map Prod.fst) ts h
    unfold EventBusManager.gracefulShutdown
    simp only [hloop]
    simp

/-- Claim C5 amended witness: with both wire unsubscribes succeeding,
shutdown attempts both channels, disconnects the transport and raises
nothing. -/
theorem gracefulShutdown_best_effort_until_first_error_witness :
    (EventBusManager.gracefulShutdown ⟨fun _ => false, fun _ => false⟩
        ⟨true, ["a", "b"], [("a", 1), ("b", 2)]⟩
        ⟨[("a", 1), ("b", 2)], true⟩).errorToCaller = false ∧
    (EventBusManager.gracefulShutdown ⟨fun _ => false, fun _ => false⟩
        ⟨true, ["a", "b"], [("a", 1), ("b", 2)]⟩
        ⟨[("a", 1), ("b", 2)], true⟩).attempted = ["a", "b"] ∧
    (EventBusManager.gracefulShutdown ⟨fun _ => false, fun _ => false⟩
        ⟨true, ["a", "b"], [("a", 1), ("b", 2)]⟩
        ⟨[("a", 1), ("b", 2)], true⟩).disconnectAttempted = true := by
  have h := gracefulShutdown_best_effort_until_first_error
    ⟨fun _ => false, fun _ => false⟩
    ⟨true, ["a", "b"], [("a", 1), ("b", 2)]⟩
    ⟨[("a", 1), ("b", 2)], true⟩
  have h2 := h.2 (fun c _ => rfl)
  exact ⟨h.1, h2.1, h2.2⟩

/-- Claim C7 counterexample: with the transport connected and a
same-process listener (id 7) registered on channel "c", `publish` performs
only the wire send: the in-process emit list of the publish step is empty,
so no same-process callback is invoked without a wire round trip —
contradicting the claim that `publish` emits the message locally in
addition to the wire send. -/
theorem publish_no_local_emit_counterexample :
    EventBusService.publish (fun _ => "serialized")
        ⟨true, ["c"], [("c", 7)]⟩ "c" (.strData "hello")
      = .ok { wire := [("c", "hello")], emitted := [] } := by
  rfl

/-- Claim C7 amended: transport `publish` while connected performs exactly
the wire send of the serialized data and no in-process emit; a
same-process subscriber's callback is invoked only when the message comes
back over the wire to the subscriber connection, whose message handler
delivers to the channel's listeners. -/
theorem publish_connected_wire_only (stringify : Payload → String)
    (st : TransportState) (channel : String) (data : WireData)
    (hc : st.isConnected = true) :
    EventBusService.publish stringify st channel data
      = .ok { wire := [(channel, serializeData stringify data)],
              emitted := [] } := by
  unfold EventBusService.publish
  rw [hc]
  simp

/-- Claim C7 amended witness: on a connected transport the publish effect
is a single wire message and an empty local-emit list. -/
theorem publish_connected_wire_only_witness :
    EventBusService.publish (fun _ => "serialized")
        ⟨true, [], [("c", 9)]⟩ "c" (.objData [("k", .vNum 2)])
      = .ok { wire := [("c", "serialized")], emitted := [] } :=
  publish_connected_wire_only (fun _ => "serialized")
    ⟨true, [], [("c", 9)]⟩ "c" (.objData [("k", .vNum 2)]) rfl

/-- Claim C8: with the transport connected and the wire subscribes
succeeding, the manager's `subscribe(c, h1)` followed by `subscribe(c, h2)`
leaves exactly one entry for `c` in the manager's channel registry, with
`h2` as the recorded handler; and every `subscribe`, whatever its outcome,
preserves the at-most-one-handler-per-channel invariant of the registry. -/
theorem subscribe_twice_single_entry
    (env : Env) (ts : TransportState) (ms : MgrState) (c : String)
    (h1 h2 : Nat) (hc : ts.isConnected = true)
    (hs : env.subscribeFails c = false) (hn : keysNodup ms.channels) :
    ((EventBusManager.subscribe env
          (EventBusManager.subscribe env ts ms c h1).1
          (EventBusManager.subscribe env ts ms c h1).2 c
          h2).2.channels.filter (fun p => p.1 = c))
        = [(c, h2)] ∧
    (∀ ts' ms' c' h', keysNodup ms'.channels →
        keysNodup (EventBusManager.subscribe env ts' ms' c' h').2.channels) := by
  constructor
  · rw [mgrSubscribe_ok env ts ms c h1 hc hs]
    dsimp only
    rw [mgrSubscribe_ok env
        { isConnected := ts.isConnected,
          wireSubs := if ts.wireSubs.contains c then ts.wireSubs
                      else ts.wireSubs ++ [c],
          listeners := ts.listeners ++ [(c, h1)] }
        { channels := setKey ms.channels c h1,
          isInitialized := ms.isInitialized } c h2 hc hs]
    dsimp only
    exact filter_setKey (setKey ms.channels c h1) c h2
      (keysNodup_setKey ms.channels c h1 hn)
  · intro ts' ms' c' h' hn'
    unfold EventBusManager.subscribe
    cases hsub : EventBusService.subscribe env ts' c' h' with
    | ok t => simpa using keysNodup_setKey ms'.channels c' h' hn'
    | error e => simpa using hn'

/-- Claim C8 witness: subscribing handler 1 and then handler 2 on channel
"c" from the empty registry leaves the single entry ("c", 2). -/
theorem subscribe_twice_single_entry_witness :
    ((EventBusManager.subscribe ⟨fun _ => false, fun _ => false⟩
          (EventBusManager.subscribe ⟨fun _ => false, fun _ => false⟩
            ⟨true, [], []⟩ ⟨[], true⟩ "c" 1).1
          (EventBusManager.subscribe ⟨fun _ => false, fun _ => false⟩
            ⟨true, [], []⟩ ⟨[], true⟩ "c" 1).2 "c"
          2).2.channels.filter (fun p => p.1 = "c"))
      = [("c", 2)] :=
  (subscribe_twice_single_entry ⟨fun _ => false, fun _ => false⟩
    ⟨true, [], []⟩ ⟨[], true⟩ "c" 1 2 rfl rfl List.nodup_nil).1

/-- Claim C9: in the single-connection variant, when every connection
attempt fails, `connect()` from the fresh state (0 retries so far,
`maxRetries = 5`) performs exactly 5 retry attempts, awaiting
`5000 * attemptNumber` ms before each retry, and then propagates the last
attempt's error to the caller — the retry recursion terminates. -/
theorem connect_retries_bounded (att : Nat → Except String Nat)
    (errs : Nat → String) (h : ∀ k, att k = .error (errs k)) :
    DatabaseConnection.connect att ⟨false, none, 0, 5⟩
      = ([5000, 10000, 15000, 20000, 25000], .error (errs 5)) := by
  simp [DatabaseConnection.connect, h]

/-- Claim C9 witness: with every attempt failing with "boom", connect
performs the five backoff delays and surfaces the final "boom". -/
theorem connect_retries_bounded_witness :
    DatabaseConnection.connect (fun _ => .error "boom") ⟨false, none, 0, 5⟩
      = ([5000, 10000, 15000, 20000, 25000], .error "boom") :=
  connect_retries_bounded (fun _ => .error "boom") (fun _ => "boom")
    (fun _ => rfl)

/-- Claim C10: the manager's `subscribe` records the handler in its channel
registry exactly when the transport-level subscribe succeeded: on a
transport failure the registry is left unchanged, and on success the
channel is recorded (and hence listed by `getStatus`). -/
theorem subscribe_registers_only_on_success
    (env : Env) (ts : TransportState) (ms : MgrState) (c : String)
    (h : Nat) :
    (∀ e, EventBusService.subscribe env ts c h = .error e →
        (EventBusManager.subscribe env ts ms c h).2 = ms) ∧
    (∀ ts', EventBusService.subscribe env ts c h = .ok ts' →
        (EventBusManager.subscribe env ts ms c h).2.channels
            = setKey ms.channels c h ∧
        c ∈ EventBusManager.getStatusChannels
              (EventBusManager.subscribe env ts ms c h).2) := by
  constructor
  · intro e he
    unfold EventBusManager.subscribe
    rw [he]
  · intro ts' hok
    unfold EventBusManager.subscribe EventBusManager.getStatusChannels
    rw [hok]
    refine ⟨rfl, ?_⟩
    exact mem_keys_of_lookupKey (lookupKey_setKey_self ms.channels c h)

/-- Claim C10 witness: on a disconnected transport the registry stays
empty; on a connected transport with the wire subscribe succeeding the
handler is recorded. -/
theorem subscribe_registers_only_on_success_witness :
    (EventBusManager.subscribe ⟨fun _ => false, fun _ => false⟩
        ⟨false, [], []⟩ ⟨[], false⟩ "c" 9).2 = ⟨[], false⟩ ∧
    (EventBusManager.subscribe ⟨fun _ => false, fun _ => false⟩
        ⟨true, [], []⟩ ⟨[], false⟩ "c" 9).2.channels = [("c", 9)] := by
  constructor
  · exact (subscribe_registers_only_on_success
      ⟨fun _ => false, fun _ => false⟩ ⟨false, [], []⟩ ⟨[], false⟩
      "c" 9).1 "Event Bus not connected" rfl
  · exact ((subscribe_registers_only_on_success
      ⟨fun _ => false, fun _ => false⟩ ⟨true, [], []⟩ ⟨[], false⟩
      "c" 9).2 ⟨true, ["c"], [("c", 9)]⟩ rfl).1
